import Mathlib

/-!
Verification development for the webBridgeBot Telegram-to-web bridge
(repository Streamtg/daad).

The source tree holds three revisions of the same `bot` package:
* revision 1: the first revision inside `src/internal/bot/telegram_bot.go`
  (definitions suffixed `_v1`),
* revision 2: the second revision inside the same file, after the document
  separator (definitions suffixed `_v2`),
* revision 0: `src/unnamed/part_000`, an older revision (suffixed `_p0`).

The persistence adapter (`webBridgeBot/internal/data`), the `utils` hashing
helpers and the web server are consumed by the bot but are not part of the
given sources; where a property depends on them they are modelled from the
specification, and each such definition carries a doc comment starting with
"Modelled from the spec:".  Everything else is translated directly from the
Go source of `telegram_bot.go` / `part_000`.
-/

/-! ## Go string primitives

Executable models of the `strings` / `net/url` functions the bot uses,
defined over `String.data` so that all proofs can be settled by evaluation.
-/

/-- Boolean test that the first list is an initial segment of the second. -/
def isPreOf : List Char → List Char → Bool
  | [], _ => true
  | _ :: _, [] => false
  | p :: ps, c :: cs => p == c && isPreOf ps cs

/-- Boolean test that `needle` occurs contiguously inside `hay`. -/
def containsSeq (hay needle : List Char) : Bool :=
  match hay with
  | [] => needle.isEmpty
  | _ :: t => isPreOf needle hay || containsSeq t needle

/-- Model of Go `strings.HasPrefix s pre`. -/
def goStartsWith (s pre : String) : Bool := isPreOf pre.data s.data

/-- Model of Go `strings.Contains s sub`. -/
def goContains (s sub : String) : Bool := containsSeq s.data sub.data

/-- Model of Go `strconv.FormatBool`. -/
def goBoolString (b : Bool) : String := if b then "true" else "false"

/-- Hexadecimal digit characters, lower case: the ten digits followed by
the letters a-f. -/
def hexChars : List Char :=
  (List.range 10).map (fun i => Char.ofNat (48 + i))
    ++ (List.range 6).map (fun i => Char.ofNat (97 + i))

/-- Hexadecimal digit characters, upper case (used by percent-encoding):
the ten digits followed by the letters A-F. -/
def hexUpperChars : List Char :=
  (List.range 10).map (fun i => Char.ofNat (48 + i))
    ++ (List.range 6).map (fun i => Char.ofNat (65 + i))

/-- The low-order hex digit of `n`, lower case. -/
def hexDigitChar (n : Nat) : Char := hexChars.getD (n % 16) '0'

/-- Characters Go `net/url` never escapes (RFC 3986 unreserved). -/
def isGoUnreserved (c : Char) : Bool :=
  (('a' ≤ c && c ≤ 'z') || ('A' ≤ c && c ≤ 'Z') || ('0' ≤ c && c ≤ '9')
    || c == '-' || c == '_' || c == '.' || c == '~')

/-- Percent-encoding of one byte, upper-case hex as Go emits it. -/
def percentEncode (c : Char) : List Char :=
  ['%', hexUpperChars.getD (c.toNat / 16 % 16) '0', hexUpperChars.getD (c.toNat % 16) '0']

/-- Model of Go `url.QueryEscape` on ASCII input: unreserved characters pass
through, space becomes a plus sign, every other character is percent-encoded. -/
def queryEscape (s : String) : String :=
  String.mk (List.flatten (s.data.map (fun c =>
    if isGoUnreserved c then [c]
    else if c == ' ' then ['+']
    else percentEncode c)))

/-- Model of Go `url.PathEscape` on ASCII input: unreserved characters and the
sub-delimiters Go keeps in a path segment pass through, everything else is
percent-encoded. -/
def pathEscape (s : String) : String :=
  String.mk (List.flatten (s.data.map (fun c =>
    if isGoUnreserved c || c == '$' || c == '&' || c == '+' || c == ','
        || c == ';' || c == '=' || c == ':' || c == '@' then [c]
    else percentEncode c)))

/-! ## Data model

`User` mirrors the row stored by `StoreUserInfo` (telegram_bot.go line 140):
user id, chat id, the three profile fields and the two authorization flags.
`DocumentFile` mirrors `types.DocumentFile` as used by
`constructWebSocketMessage` (telegram_bot.go lines 468-483).
-/

structure User where
  userID : Int
  chatID : Int
  firstName : String
  lastName : String
  username : String
  isAuthorized : Bool
  isAdmin : Bool
deriving DecidableEq, Repr

structure DocumentFile where
  fileName : String
  mimeType : String
  fileSize : Int
  id : Int
  duration : Int
  width : Int
  height : Int
  title : String
  performer : String
  isVoice : Bool
  isAnimation : Bool
deriving DecidableEq, Repr

/-- Outcome of one persistence-adapter call: a value, "no rows", or a storage
error.  The spec (section 6) requires every adapter call to be able to fail
with a storage error distinct from "not found". -/
inductive DbRes (α : Type) where
  | ok (a : α)
  | noRows
  | storageErr
deriving DecidableEq, Repr

/-- Database state seen by the handlers: the user rows plus fault-injection
sets recording which user ids hit a storage error on reads resp. writes. -/
structure Db where
  users : List User
  getFaults : List Int
  updateFaults : List Int
deriving DecidableEq, Repr

/-- Row lookup by user id: the `userID` column is the unique key of the spec
data model (section 3), and `handleStartCommand` / the admin checks pass a
user id to `GetUserInfo`. -/
def getUser (σ : List User) (id : Int) : Option User :=
  σ.find? (fun u => u.userID == id)

/-- Modelled from the spec: `data.UserRepository.GetUserInfo` (not under
`src/`), spec section 6 `getUser(id)` — returns the row keyed by `userID`,
`sql.ErrNoRows` when absent, or a storage error. -/
def getUserInfoR (db : Db) (id : Int) : DbRes User :=
  if id ∈ db.getFaults then .storageErr
  else
    match getUser db.users id with
    | some u => .ok u
    | none => .noRows

/-- Modelled from the spec: `data.UserRepository.IsFirstUser` (not under
`src/`), spec section 4.1 — true iff no user rows exist yet. -/
def isFirstUserR (db : Db) : Bool := db.users.isEmpty

/-- Modelled from the spec: `data.UserRepository.StoreUserInfo` (not under
`src/`) — inserts a fresh row with the given flags, or hits a storage error. -/
def storeUserInfoR (db : Db) (uid cid : Int) (fn ln un : String)
    (auth adm : Bool) : DbRes Db :=
  if uid ∈ db.updateFaults then .storageErr
  else .ok { db with users := db.users ++ [⟨uid, cid, fn, ln, un, auth, adm⟩] }

/-- The row update `AuthorizeUser` performs on the target row. -/
def updUser (t : Int) (adm : Bool) (u : User) : User :=
  if u.userID == t then { u with isAuthorized := true, isAdmin := adm } else u

/-- Modelled from the spec: `data.UserRepository.AuthorizeUser` (not under
`src/`), spec section 4.1 — fails with `NotFound` when the target row is
absent, otherwise sets `isAuthorized := true` and `isAdmin := adm`. -/
def authorizeUserR (db : Db) (t : Int) (adm : Bool) : DbRes Db :=
  if t ∈ db.updateFaults then .storageErr
  else if (getUser db.users t).isSome then
    .ok { db with users := db.users.map (updUser t adm) }
  else .noRows

/-- The row update `DeauthorizeUser` performs on the target row. -/
def deauthUser (t : Int) (u : User) : User :=
  if u.userID == t then { u with isAuthorized := false, isAdmin := false } else u

/-- Modelled from the spec: `data.UserRepository.DeauthorizeUser` (not under
`src/`), spec section 4.1 — fails with `NotFound` when the target row is
absent, otherwise clears both flags. -/
def deauthorizeUserR (db : Db) (t : Int) : DbRes Db :=
  if t ∈ db.updateFaults then .storageErr
  else if (getUser db.users t).isSome then
    .ok { db with users := db.users.map (deauthUser t) }
  else .noRows

/-! ## Capability addressing -/

/-- Length-prefixed byte encoding of one string field. -/
def encStr (s : String) : List Nat :=
  s.data.length :: s.data.map Char.toNat

/-- Sign-and-magnitude byte encoding of one integer field. -/
def encInt (n : Int) : List Nat :=
  (if n < 0 then 1 else 0) :: [n.natAbs % 256, n.natAbs / 256 % 256,
    n.natAbs / 65536 % 256, n.natAbs / 16777216]

/-- Modelled from the spec: `utils.PackFile` (not under `src/`), spec
section 4.2 — canonical, order-fixed, length-prefixed concatenation of
`fileName`, `fileSizeBytes`, `mimeType`, `fileID`. -/
def packFile (fileName : String) (fileSize : Int) (mimeType : String)
    (fileID : Int) : List Nat :=
  encStr fileName ++ encInt fileSize ++ encStr mimeType ++ encInt fileID

/-- Deterministic 64-bit fold digest of the packed bytes. -/
def hashFold (bytes : List Nat) : Nat :=
  bytes.foldl (fun h b => (h * 131 + b + 1) % (2 ^ 64)) 5381

/-- Modelled from the spec: `utils.GetShortHash` (not under `src/`), spec
section 4.2 — a digest of the packed bytes truncated to `length` URL-safe
characters; deterministic in its inputs. -/
def getShortHash (bytes : List Nat) (length : Nat) : String :=
  String.mk ((List.range length).map (fun i => hexDigitChar (hashFold bytes / 16 ^ i)))

/-- `generateFileURL` of telegram_bot.go (revision 1 lines 485-488, revision 2
lines 1236-1244): `Sprintf("%s/%d/%s", baseURL, messageID, hash)` over the
short hash of the packed descriptor fields. -/
def generateFileURL (baseURL : String) (hashLength : Nat) (messageID : Int)
    (f : DocumentFile) : String :=
  baseURL ++ "/" ++ toString messageID ++ "/"
    ++ getShortHash (packFile f.fileName f.fileSize f.mimeType f.id) hashLength

/-- `generateFileURL` of part_000 (lines 267-271):
`Sprintf("%s/stream/%d/%s?rand=%d", baseURL, chatID, url.PathEscape(fileID), randPart)`
where `randPart := rand.Intn(999999)`; the random draw is made an explicit
argument here. -/
def generateFileURL_p0 (baseURL : String) (chatID : Int) (fileID : String)
    (randPart : Nat) : String :=
  baseURL ++ "/stream/" ++ toString chatID ++ "/" ++ pathEscape fileID
    ++ "?rand=" ++ toString randPart

/-- `wrapWithProxyIfNeeded` of telegram_bot.go (revision 1 lines 490-499,
revision 2 lines 1246-1255): an http(s) URL that does not contain
`":" + port`, does not contain `"localhost"` and does not start with the
configured base URL is rewritten to `/proxy?url={query-escaped original}`;
every other input passes through unchanged. -/
def wrapWithProxyIfNeeded (port baseURL fileURL : String) : String :=
  if goStartsWith fileURL "http://" || goStartsWith fileURL "https://" then
    if !goContains fileURL (":" ++ port) && !goContains fileURL "localhost"
        && !goStartsWith fileURL baseURL then
      "/proxy?url=" ++ queryEscape fileURL
    else fileURL
  else fileURL

/-! ## Reply texts

The literal strings the handlers send, transcribed from the source.
-/

/-- Denial sent by the admin-only command handlers. -/
def permDeniedMsg : String := "You are not authorized to perform this action."

/-- Generic failure reply of the authorize command. -/
def authFailedMsg : String := "Failed to authorize the user."

/-- Generic failure reply of the deauthorize command. -/
def deauthFailedMsg : String := "Failed to deauthorize the user."

/-- Follow-up notice `/start` sends to an unauthorized user (both revisions). -/
def startNoticeMsg : String :=
  "You are not authorized to use this bot yet. Please ask one of the administrators to authorize you and wait until you receive a confirmation."

/-- Denial sent on a media message from an unknown or unauthorized chat
(revision 1 lines 350 and 356). -/
def mediaDenyMsg_v1 : String :=
  "You are not authorized to use this bot yet. Please ask one of the administrators to authorize you."

/-- Reply sent when media extraction fails with no link fallback (revision 1
line 406). -/
def unsupportedMsg_v1 : String := "Unsupported media type."

/-- Text before the entry URL in revision 1's welcome (lines 156-166); the
format string ends in `%s`, so the message is this text followed by the URL. -/
def startMsgHead_v1 (firstName selfName : String) : String :=
  "Hello " ++ firstName ++ ", I am @" ++ selfName
    ++ ", your bridge between Telegram and the Web!\n\n"
    ++ "Send or forward media files (audio, video, photos, or documents) to this bot.\n"
    ++ "I will instantly generate a streaming link and play it on your web player.\n\n"
    ++ "Features:\n"
    ++ "• Forward media from any chat\n"
    ++ "• Upload media directly (including video files as documents)\n"
    ++ "• Instant web streaming\n\n"
    ++ "Your player: "

/-- Revision 1's welcome message (lines 156-166). -/
def startMsg_v1 (firstName selfName webURL : String) : String :=
  startMsgHead_v1 firstName selfName ++ webURL

/-- Revision 2's welcome message (lines 771-779): a fixed string with no
format arguments and no entry URL. -/
def startMsg_v2 : String :=
  "Hello Streammgram, I am @Mediaprocesor_bot, your bridge between Telegram and the Web!\n\n"
    ++ "You can **forward** or **directly upload** media files (audio, video, photos, or documents) to this bot.\n"
    ++ "I will instantly generate a streaming link and play it on your web player.\n\n"
    ++ "**Features:**\n"
    ++ "• Forward media from any chat\n"
    ++ "• Upload media directly (including video files as documents)\n"
    ++ "• Instant web streaming"

/-! ## The /start handler -/

/-- The fields of a `/start` update the handler reads: effective user id and
profile, and the effective chat id. -/
structure StartEvent where
  uid : Int
  cid : Int
  firstName : String
  lastName : String
  username : String
deriving DecidableEq, Repr

/-- Observable outcome of one `/start` handling: the database afterwards, the
replies sent to the invoking chat in order, whether the admin-notification
goroutine was spawned, and whether the handler returned a Go error instead of
replying. -/
structure StartOut where
  db : Db
  replies : List String
  notifiedAdmins : Bool
  failed : Bool
deriving DecidableEq, Repr

/-- `handleStartCommand` of telegram_bot.go revision 1 (lines 107-179):
ignore the bot itself; look the sender up by user id; on `ErrNoRows` treat as
new; ask `IsFirstUser`; a new user is stored with both flags set iff the
store was empty, and admins are notified for a new non-admin; an existing
user's row is left untouched and its flags are reused; reply with the welcome
containing `{baseURL}/{chatID}`, then a notice if unauthorized. -/
def handleStartCommand_v1 (selfID : Int) (selfName baseURL : String)
    (db : Db) (e : StartEvent) : StartOut :=
  if e.uid = selfID then ⟨db, [], false, false⟩
  else
    match getUserInfoR db e.uid with
    | .storageErr => ⟨db, [], false, true⟩
    | .noRows =>
      let isFirst := isFirstUserR db
      match storeUserInfoR db e.uid e.cid e.firstName e.lastName e.username isFirst isFirst with
      | .ok db1 =>
        let webURL := baseURL ++ "/" ++ toString e.cid
        ⟨db1, startMsg_v1 e.firstName selfName webURL
            :: (if isFirst then [] else [startNoticeMsg]), !isFirst, false⟩
      | _ => ⟨db, [], false, true⟩
    | .ok u =>
      let webURL := baseURL ++ "/" ++ toString e.cid
      ⟨db, startMsg_v1 e.firstName selfName webURL
          :: (if u.isAuthorized then [] else [startNoticeMsg]), false, false⟩

/-- `handleStartCommand` of telegram_bot.go revision 2 (lines 711-796): same
registration flow, but the welcome is the fixed `startMsg_v2` — the handler
never builds `{baseURL}/{chatID}` and sends no button and no link. -/
def handleStartCommand_v2 (selfID : Int) (db : Db) (e : StartEvent) : StartOut :=
  if e.uid = selfID then ⟨db, [], false, false⟩
  else
    match getUserInfoR db e.uid with
    | .storageErr => ⟨db, [], false, true⟩
    | .noRows =>
      let isFirst := isFirstUserR db
      match storeUserInfoR db e.uid e.cid e.firstName e.lastName e.username isFirst isFirst with
      | .ok db1 =>
        ⟨db1, startMsg_v2 :: (if isFirst then [] else [startNoticeMsg]), !isFirst, false⟩
      | _ => ⟨db, [], false, true⟩
    | .ok u =>
      ⟨db, startMsg_v2 :: (if u.isAuthorized then [] else [startNoticeMsg]), false, false⟩

/-- The authorization flag the registration flow computes for the sender:
an existing row keeps its flag; a fresh sender is authorized iff the store
was empty (bootstrap rule). -/
def startAuth (db : Db) (e : StartEvent) : Bool :=
  match getUser db.users e.uid with
  | some u => u.isAuthorized
  | none => isFirstUserR db

/-! ## The concurrent registration race (spec sections 4.1 and 5)

`handleStartCommand` performs two separate adapter interactions: first the
reads (`GetUserInfo(user.ID)` at line 118 and `IsFirstUser()` at line 124,
part_000 lines 122-127), then the write (`StoreUserInfo` at line 140,
part_000 line 136).  Each inbound update is handled by its own task, so two
first contacts may interleave between the read phase and the write phase.
The small-step system below runs one read-phase or write-phase per step,
scheduled by a list of process indices.
-/

/-- What the read phase of one registration decides: `none` when the user row
already exists (no write follows), otherwise the pair of flags the write will
store — both true iff the store was empty at read time. -/
def regRead (σ : List User) (e : StartEvent) : Option (Bool × Bool) :=
  match getUser σ e.uid with
  | some _ => none
  | none => if σ.isEmpty then some (true, true) else some (false, false)

/-- The write phase: `StoreUserInfo` with the flags decided at read time. -/
def regWrite (σ : List User) (e : StartEvent) : Option (Bool × Bool) → List User
  | none => σ
  | some (auth, adm) => σ ++ [⟨e.uid, e.cid, e.firstName, e.lastName, e.username, auth, adm⟩]

/-- Progress of one in-flight registration task. -/
inductive RegPhase where
  | ready
  | decided (w : Option (Bool × Bool))
  | done
deriving DecidableEq, Repr

/-- One in-flight registration task: its event and its phase. -/
structure RegProc where
  ev : StartEvent
  phase : RegPhase
deriving DecidableEq, Repr

/-- The shared store plus the in-flight registration tasks. -/
structure RaceState where
  users : List User
  procs : List RegProc
deriving DecidableEq, Repr

/-- Run one atomic phase of task `i` (out-of-range or finished tasks stall). -/
def raceStep (s : RaceState) (i : Nat) : RaceState :=
  match s.procs[i]? with
  | none => s
  | some p =>
    match p.phase with
    | .ready => { s with procs := s.procs.set i ⟨p.ev, .decided (regRead s.users p.ev)⟩ }
    | .decided w => { users := regWrite s.users p.ev w, procs := s.procs.set i ⟨p.ev, .done⟩ }
    | .done => s

/-- Run the phases named by a schedule of task indices. -/
def raceRun (s : RaceState) : List Nat → RaceState
  | [] => s
  | i :: rest => raceRun (raceStep s i) rest

/-- Sanity link between the race model and the handler: performing the read
phase and then immediately the write phase is exactly the database effect of
`handleStartCommand_v1` on a fault-free store. -/
theorem regPhases_agree_with_handleStart (σ : List User) (e : StartEvent)
    (selfID : Int) (selfName baseURL : String) (h : e.uid ≠ selfID) :
    regWrite σ e (regRead σ e) =
      (handleStartCommand_v1 selfID selfName baseURL ⟨σ, [], []⟩ e).db.users := by
  unfold regWrite regRead handleStartCommand_v1 getUserInfoR storeUserInfoR isFirstUserR getUser
  simp only [if_neg h]
  simp only [List.mem_nil_iff, if_false, if_neg (fun hh => hh)]
  cases hf : σ.find? (fun u => u.userID == e.uid) with
  | some u => simp [hf]
  | none =>
    simp [hf]
    cases σ <;> simp

/-! ## Admin commands -/

/-- Observable outcome of an admin command: the database afterwards, the
replies to the invoking chat, and best-effort messages sent to other chats
as `(chatID, text)` pairs. -/
structure CmdOut where
  db : Db
  replies : List String
  outbound : List (Int × String)
deriving DecidableEq, Repr

/-- Accumulate decimal digits, failing on any non-digit. -/
def decValueAux : List Char → Nat → Option Nat
  | [], acc => some acc
  | c :: cs, acc =>
    if '0' ≤ c && c ≤ '9' then decValueAux cs (acc * 10 + (c.toNat - 48))
    else none

/-- Model of Go `strconv.ParseInt(s, 10, 64)` as used on the command
argument: an optional sign followed by at least one decimal digit (64-bit
range saturation is not modelled; the commands only pass ids inside it). -/
def goParseInt (s : String) : Option Int :=
  match s.data with
  | [] => none
  | '-' :: rest =>
    if rest.isEmpty then none else (decValueAux rest 0).map (fun n => -(n : Int))
  | '+' :: rest =>
    if rest.isEmpty then none else (decValueAux rest 0).map (fun n => (n : Int))
  | cs => (decValueAux cs 0).map (fun n => (n : Int))

/-- Whether the optional third argument requests admin rights
(`len(args) > 2 && args[2] == "admin"`). -/
def admArg (rest : List String) : Bool :=
  match rest with
  | a :: _ => a == "admin"
  | [] => false

/-- The body shared verbatim by both revisions of `handleAuthorizeUser`
after the admin check (revision 1 lines 235-269, revision 2 lines 859-896):
usage check, parse the target id, call `AuthorizeUser`, on success notify the
target chat best-effort and confirm to the admin. -/
def authorizeCmdBody (db : Db) (args : List String) : CmdOut :=
  match args with
  | _ :: tStr :: rest =>
    match goParseInt tStr with
    | none => ⟨db, ["Invalid user ID."], []⟩
    | some t =>
      let adm := admArg rest
      match authorizeUserR db t adm with
      | .ok db1 =>
        let sfx := if adm then " as an admin" else ""
        let outb :=
          match getUserInfoR db1 t with
          | .ok ti => [(ti.chatID, "You have been authorized" ++ sfx ++ " to use WebBridgeBot!")]
          | _ => []
        ⟨db1, ["User " ++ toString t ++ " has been authorized" ++ sfx ++ "."], outb⟩
      | _ => ⟨db, [authFailedMsg], []⟩
  | _ => ⟨db, ["Usage: /authorize <user_id> [admin]"], []⟩

/-- `handleAuthorizeUser` of telegram_bot.go revision 1 (lines 226-270): the
admin check is `if err != nil || !userInfo.IsAdmin`, so a failed retrieval of
the acting user's row — `ErrNoRows` or a storage error — takes the same
branch as a non-admin actor and replies with the permission denial. -/
def handleAuthorizeUser_v1 (db : Db) (actorID : Int) (args : List String) : CmdOut :=
  match getUserInfoR db actorID with
  | .ok ui => if ui.isAdmin then authorizeCmdBody db args else ⟨db, [permDeniedMsg], []⟩
  | _ => ⟨db, [permDeniedMsg], []⟩

/-- `handleAuthorizeUser` of telegram_bot.go revision 2 (lines 845-897): a
failed retrieval of the acting user's row replies with the generic
`authFailedMsg`, and only an actor whose row carries `IsAdmin = false` gets
the permission denial. -/
def handleAuthorizeUser_v2 (db : Db) (actorID : Int) (args : List String) : CmdOut :=
  match getUserInfoR db actorID with
  | .ok ui => if ui.isAdmin then authorizeCmdBody db args else ⟨db, [permDeniedMsg], []⟩
  | _ => ⟨db, [authFailedMsg], []⟩

/-- The body shared by both revisions of `handleDeauthorizeUser` after the
admin check (revision 1 lines 281-309, revision 2 lines 913-943). -/
def deauthorizeCmdBody (db : Db) (args : List String) : CmdOut :=
  match args with
  | _ :: tStr :: _ =>
    match goParseInt tStr with
    | none => ⟨db, ["Invalid user ID."], []⟩
    | some t =>
      match deauthorizeUserR db t with
      | .ok db1 =>
        let outb :=
          match getUserInfoR db1 t with
          | .ok ti => [(ti.chatID, "You have been deauthorized from using WebBridgeBot.")]
          | _ => []
        ⟨db1, ["User " ++ toString t ++ " has been deauthorized."], outb⟩
      | _ => ⟨db, [deauthFailedMsg], []⟩
  | _ => ⟨db, ["Usage: /deauthorize <user_id>"], []⟩

/-- `handleDeauthorizeUser` of telegram_bot.go revision 1 (lines 272-310):
retrieval failure for the acting user is conflated with the permission
denial, as in `handleAuthorizeUser_v1`. -/
def handleDeauthorizeUser_v1 (db : Db) (actorID : Int) (args : List String) : CmdOut :=
  match getUserInfoR db actorID with
  | .ok ui => if ui.isAdmin then deauthorizeCmdBody db args else ⟨db, [permDeniedMsg], []⟩
  | _ => ⟨db, [permDeniedMsg], []⟩

/-- `handleDeauthorizeUser` of telegram_bot.go revision 2 (lines 899-944):
retrieval failure replies with the generic `deauthFailedMsg`, distinct from
the permission denial. -/
def handleDeauthorizeUser_v2 (db : Db) (actorID : Int) (args : List String) : CmdOut :=
  match getUserInfoR db actorID with
  | .ok ui => if ui.isAdmin then deauthorizeCmdBody db args else ⟨db, [permDeniedMsg], []⟩
  | _ => ⟨db, [deauthFailedMsg], []⟩

/-! ## Media messages -/

/-- What `utils.FileFromMedia` plus the web-page fallback can yield for one
message: a native descriptor, a `MessageMediaWebPage` whose page is empty
together with the URL extracted from the message entities (empty string when
none), or an unsupported medium. -/
inductive MediaContent where
  | native (f : DocumentFile)
  | emptyWebPage (link : String)
  | unsupported
deriving DecidableEq, Repr

/-- Modelled from the spec: `utils.DetectMimeTypeFromURL` (not under `src/`)
— the MIME type inferred from the URL's path, `application/octet-stream`
when unknown. -/
def detectMimeTypeFromURL (u : String) : String :=
  if goContains u ".mp4" then "video/mp4"
  else if goContains u ".mp3" then "audio/mpeg"
  else "application/octet-stream"

/-- The degenerate descriptor revision 1 builds for an extracted link
(line 401): name `external_media`, inferred MIME type, zero size, all other
fields Go zero values. -/
def externalMediaFile (link : String) : DocumentFile :=
  ⟨"external_media", detectMimeTypeFromURL link, 0, 0, 0, 0, 0, "", "", false, false⟩

/-- The push payload `constructWebSocketMessage` builds (revision 1 lines
468-483): the URL passed through the proxy gate plus the descriptor fields,
all rendered as strings, in the order the Go map literal lists them. -/
def constructWebSocketMessage (port baseURL fileURL : String) (f : DocumentFile) :
    List (String × String) :=
  [("url", wrapWithProxyIfNeeded port baseURL fileURL),
   ("fileName", f.fileName),
   ("fileId", toString f.id),
   ("mimeType", f.mimeType),
   ("duration", toString f.duration),
   ("width", toString f.width),
   ("height", toString f.height),
   ("title", f.title),
   ("performer", f.performer),
   ("isVoice", goBoolString f.isVoice),
   ("isAnimation", goBoolString f.isAnimation)]

/-- Observable outcome of one media message: replies to the chat, payloads
published to the fan-out registry as `(chatID, payload)`, and whether the
handler aborted with a Go error. -/
structure MediaOut where
  replies : List String
  published : List (Int × List (String × String))
  aborted : Bool
deriving DecidableEq, Repr

/-- `sendMediaToUser` of telegram_bot.go revision 1 (lines 442-466): reply
with the URL as the message text, then publish the websocket payload for the
chat. -/
def sendMediaToUser_v1 (port baseURL : String) (cid : Int) (fileURL : String)
    (f : DocumentFile) : MediaOut :=
  ⟨[fileURL], [(cid, constructWebSocketMessage port baseURL fileURL f)], false⟩

/-- `handleMediaMessages` of telegram_bot.go revision 1 (lines 331-413): drop
non-user chats; look the sender up by the chat id; deny on `ErrNoRows` or an
unauthorized row; abort on a storage error; otherwise generate the capability
URL for native media (or fall back to an extracted link), reply with it and
publish the payload; reply "unsupported" when neither is available. -/
def handleMediaMessages_v1 (port baseURL : String) (hashLength : Nat) (db : Db)
    (cid : Int) (isUserChat : Bool) (messageID : Int) (mc : MediaContent) : MediaOut :=
  if !isUserChat then ⟨[], [], false⟩
  else
    match getUserInfoR db cid with
    | .noRows => ⟨[mediaDenyMsg_v1], [], false⟩
    | .storageErr => ⟨[], [], true⟩
    | .ok eu =>
      if !eu.isAuthorized then ⟨[mediaDenyMsg_v1], [], false⟩
      else
        match mc with
        | .native f =>
          sendMediaToUser_v1 port baseURL cid (generateFileURL baseURL hashLength messageID f) f
        | .emptyWebPage link =>
          if link ≠ "" then sendMediaToUser_v1 port baseURL cid link (externalMediaFile link)
          else ⟨[unsupportedMsg_v1], [], false⟩
        | .unsupported => ⟨[unsupportedMsg_v1], [], false⟩

/-! ## Claim theorems -/

/-- C1.  The first-user rule is a check-then-act race: with two concurrent
first contacts (users 1 and 2 on an empty store) interleaved as
read(1), read(2), write(1), write(2), BOTH new rows are stored with
`isAuthorized = true, isAdmin = true` — two bootstrap admins — whereas the
same two registrations run sequentially grant exactly one.  The claim (and
spec sections 4.1 and 5) demands at most one bootstrap admin even under
concurrent first contact, which the code does not ensure: the code is the
bug, since the spec requires an atomic insert-if-first or serialization and
`handleStartCommand` uses neither. -/
theorem bootstrapRace_grants_two_admins :
    (raceRun ⟨[], [⟨⟨1, 1, "A", "", ""⟩, .ready⟩, ⟨⟨2, 2, "B", "", ""⟩, .ready⟩]⟩
        [0, 1, 0, 1]).users =
      [⟨1, 1, "A", "", "", true, true⟩, ⟨2, 2, "B", "", "", true, true⟩]
    ∧ ((raceRun ⟨[], [⟨⟨1, 1, "A", "", ""⟩, .ready⟩, ⟨⟨2, 2, "B", "", ""⟩, .ready⟩]⟩
        [0, 0, 1, 1]).users.countP (fun u => u.isAdmin)) = 1 := by
  constructor <;> rfl

/-- C3, counterexample.  In part_000 the generated URL also depends on the
`rand.Intn(999999)` draw: two invocations on the identical file identifier
and chat give different URLs, so that revision's URL generation is not
deterministic. -/
theorem tokenGen_p0_random_counterexample :
    generateFileURL_p0 "http://x" 5 "f" 0 ≠ generateFileURL_p0 "http://x" 5 "f" 1 := by
  decide

/-- C3, amended.  In telegram_bot.go the generated URL is a pure function of
the configuration, the message id and exactly the four packed descriptor
fields: two descriptors agreeing on `fileName`, `fileSize`, `mimeType` and
`id` produce the identical URL (hence the identical token), whatever their
other fields. -/
theorem tokenGen_v1_deterministic (baseURL : String) (hashLength : Nat)
    (messageID : Int) (f g : DocumentFile)
    (h1 : f.fileName = g.fileName) (h2 : f.fileSize = g.fileSize)
    (h3 : f.mimeType = g.mimeType) (h4 : f.id = g.id) :
    generateFileURL baseURL hashLength messageID f =
      generateFileURL baseURL hashLength messageID g := by
  unfold generateFileURL
  rw [h1, h2, h3, h4]

/-- Witness for C3: two descriptors with equal packed fields but different
duration, dimensions, title, performer and flags give the same URL. -/
theorem tokenGen_v1_deterministic_witness :
    generateFileURL "http://x" 8 7 ⟨"a.mp4", "video/mp4", 10, 99, 5, 1, 2, "T", "P", false, true⟩ =
      generateFileURL "http://x" 8 7 ⟨"a.mp4", "video/mp4", 10, 99, 0, 0, 0, "", "", true, false⟩ :=
  tokenGen_v1_deterministic "http://x" 8 7 _ _ rfl rfl rfl rfl

/-- C4, counterexample.  `wrapWithProxyIfNeeded` only exempts the substring
"localhost", not loopback addresses: the loopback URL
`http://127.0.0.1/a` is rewritten to the proxy form, not left unchanged; and
the foreign URL `http://evil.com:8080/x` — neither loopback nor prefixed by
the base URL — is left unchanged because it contains `":" + port`, though the
claim says every such URL is rewritten. -/
theorem wrapProxy_loopback_counterexample :
    wrapWithProxyIfNeeded "8080" "https://example.com" "http://127.0.0.1/a" =
        "/proxy?url=http%3A%2F%2F127.0.0.1%2Fa"
    ∧ wrapWithProxyIfNeeded "8080" "https://example.com" "http://evil.com:8080/x" =
        "http://evil.com:8080/x" := by
  constructor <;> decide

/-- C4, amended.  `wrapWithProxyIfNeeded` passes every non-http(s) URL
through unchanged; leaves an http(s) URL unchanged when it contains
`":" + port`, contains the substring "localhost", or starts with the
configured base URL; and rewrites every other http(s) URL to
`/proxy?url={query-escaped original}`. -/
theorem wrapProxy_characterization :
    (∀ port baseURL u, goStartsWith u "http://" = false →
      goStartsWith u "https://" = false →
      wrapWithProxyIfNeeded port baseURL u = u)
    ∧ (∀ port baseURL u,
      (goStartsWith u "http://" = true ∨ goStartsWith u "https://" = true) →
      (goContains u (":" ++ port) = true ∨ goContains u "localhost" = true
        ∨ goStartsWith u baseURL = true) →
      wrapWithProxyIfNeeded port baseURL u = u)
    ∧ (∀ port baseURL u,
      (goStartsWith u "http://" = true ∨ goStartsWith u "https://" = true) →
      goContains u (":" ++ port) = false → goContains u "localhost" = false →
      goStartsWith u baseURL = false →
      wrapWithProxyIfNeeded port baseURL u = "/proxy?url=" ++ queryEscape u) := by
  refine ⟨?_, ?_, ?_⟩
  · intro port baseURL u h1 h2
    simp [wrapWithProxyIfNeeded, h1, h2]
  · intro port baseURL u hpre hex
    rcases hpre with h | h <;> rcases hex with h2 | h2 | h2 <;>
      simp [wrapWithProxyIfNeeded, h, h2]
  · intro port baseURL u hpre h1 h2 h3
    rcases hpre with h | h <;> simp [wrapWithProxyIfNeeded, h, h1, h2, h3]

/-- Witness for C4: one URL of each kind — a non-http scheme, an exempted
localhost URL, and a rewritten third-party URL. -/
theorem wrapProxy_characterization_witness :
    wrapWithProxyIfNeeded "8080" "https://example.com" "ftp://host/f" = "ftp://host/f"
    ∧ wrapWithProxyIfNeeded "8080" "https://example.com" "http://localhost/f" =
        "http://localhost/f"
    ∧ wrapWithProxyIfNeeded "8080" "https://example.com" "http://b.com/f" =
        "/proxy?url=" ++ queryEscape "http://b.com/f" :=
  ⟨wrapProxy_characterization.1 "8080" "https://example.com" "ftp://host/f"
      (by decide) (by decide),
   wrapProxy_characterization.2.1 "8080" "https://example.com" "http://localhost/f"
      (Or.inl (by decide)) (Or.inr (Or.inl (by decide))),
   wrapProxy_characterization.2.2 "8080" "https://example.com" "http://b.com/f"
      (Or.inl (by decide)) (by decide) (by decide) (by decide)⟩

/-- Every character `hexDigitChar` can output is a hexadecimal digit. -/
theorem hexDigitChar_mem (n : Nat) : hexDigitChar n ∈ hexChars := by
  unfold hexDigitChar
  have h : n % 16 < 16 := Nat.mod_lt _ (by norm_num)
  generalize n % 16 = k at h ⊢
  interval_cases k <;> decide

/-- C7, counterexample.  part_000's URL has the shape
`{baseURL}/stream/{chatID}/{fileID}?rand={n}`: an extra fixed path segment
and a query parameter, so the generated URL is not of the claimed fixed
shape `{baseURL}/{messageID}/{token}`. -/
theorem fileURL_p0_shape_counterexample :
    generateFileURL_p0 "http://x" 5 "f" 3 = "http://x/stream/5/f?rand=3"
    ∧ '?' ∈ (generateFileURL_p0 "http://x" 5 "f" 3).data := by
  constructor <;> decide

/-- C7, amended.  telegram_bot.go's `generateFileURL` produces exactly
`{baseURL}/{messageID}/{token}` where the token is the short hash of the
packed `fileName`, `fileSize`, `mimeType`, `fileID`, and the token contains
no path separator and no query introducer. -/
theorem fileURL_v1_shape (baseURL : String) (hashLength : Nat) (messageID : Int)
    (f : DocumentFile) :
    generateFileURL baseURL hashLength messageID f =
      baseURL ++ "/" ++ toString messageID ++ "/"
        ++ getShortHash (packFile f.fileName f.fileSize f.mimeType f.id) hashLength
    ∧ ∀ c ∈ (getShortHash (packFile f.fileName f.fileSize f.mimeType f.id) hashLength).data,
        c ≠ '/' ∧ c ≠ '?' := by
  refine ⟨rfl, ?_⟩
  intro c hc
  have hmem : c ∈ hexChars := by
    simp only [getShortHash] at hc
    obtain ⟨i, _, rfl⟩ := List.mem_map.mp hc
    exact hexDigitChar_mem _
  have hall : ∀ x ∈ hexChars, x ≠ '/' ∧ x ≠ '?' := by decide
  exact hall c hmem

/-- `updUser` never changes the row key. -/
theorem updUser_userID (t : Int) (adm : Bool) (u : User) :
    ((updUser t adm u)).userID = u.userID := by
  unfold updUser; split <;> rfl

/-- `updUser` never changes the push destination. -/
theorem updUser_chatID (t : Int) (adm : Bool) (u : User) :
    ((updUser t adm u)).chatID = u.chatID := by
  unfold updUser; split <;> rfl

/-- Looking the target up after `AuthorizeUser`'s row update finds exactly the
updated row. -/
theorem getUser_map_updUser (σ : List User) (t : Int) (adm : Bool) :
    getUser (σ.map (updUser t adm)) t = Option.map (updUser t adm) (getUser σ t) := by
  unfold getUser
  induction σ with
  | nil => rfl
  | cons v vs ih =>
    have hid : ((updUser t adm v).userID == t) = (v.userID == t) := by
      rw [updUser_userID]
    simp only [List.map_cons, List.find?, hid]
    cases hvt : (v.userID == t) with
    | true => simp
    | false => simpa using ih

/-- C6.  The `/start` handler is idempotent on registered users: when the
sender already has a row, no store and no authorization mutation happens —
the database is returned unchanged, no admin notification is spawned — and
the replies are derived from the stored flags; only an unseen sender gets a
fresh row, whose flags are both `db.users.isEmpty` (the bootstrap rule). -/
theorem register_idempotent :
    (∀ selfID selfName baseURL db e u, e.uid ≠ selfID → e.uid ∉ db.getFaults →
      getUser db.users e.uid = some u →
      handleStartCommand_v1 selfID selfName baseURL db e =
        ⟨db, startMsg_v1 e.firstName selfName (baseURL ++ "/" ++ toString e.cid)
            :: (if u.isAuthorized then [] else [startNoticeMsg]), false, false⟩)
    ∧ (∀ selfID selfName baseURL db e, e.uid ≠ selfID → e.uid ∉ db.getFaults →
      e.uid ∉ db.updateFaults → getUser db.users e.uid = none →
      (handleStartCommand_v1 selfID selfName baseURL db e).db.users =
        db.users ++ [⟨e.uid, e.cid, e.firstName, e.lastName, e.username,
          db.users.isEmpty, db.users.isEmpty⟩]) := by
  constructor
  · intro selfID selfName baseURL db e u h1 h2 h3
    simp [handleStartCommand_v1, getUserInfoR, h1, h2, h3]
  · intro selfID selfName baseURL db e h1 h2 h3 h4
    simp [handleStartCommand_v1, getUserInfoR, storeUserInfoR, isFirstUserR, h1, h2, h3, h4]

/-- Witness for C6: a registered unauthorized user and a registered
authorized admin both trigger no mutation, and a fresh user on a non-empty
store is appended unauthorized. -/
theorem register_idempotent_witness :
    handleStartCommand_v1 0 "bot" "http://h" ⟨[⟨1, 1, "A", "", "", true, true⟩,
        ⟨2, 22, "B", "", "", false, false⟩], [], []⟩ ⟨2, 22, "B", "", ""⟩ =
      ⟨⟨[⟨1, 1, "A", "", "", true, true⟩, ⟨2, 22, "B", "", "", false, false⟩], [], []⟩,
        startMsg_v1 "B" "bot" ("http://h" ++ "/" ++ toString (22 : Int))
          :: [startNoticeMsg], false, false⟩
    ∧ (handleStartCommand_v1 0 "bot" "http://h" ⟨[⟨1, 1, "A", "", "", true, true⟩], [], []⟩
        ⟨3, 33, "C", "", ""⟩).db.users =
      [⟨1, 1, "A", "", "", true, true⟩] ++ [⟨3, 33, "C", "", "", false, false⟩] := by
  constructor
  · have h := register_idempotent.1 0 "bot" "http://h" ⟨[⟨1, 1, "A", "", "", true, true⟩,
        ⟨2, 22, "B", "", "", false, false⟩], [], []⟩ ⟨2, 22, "B", "", ""⟩
        ⟨2, 22, "B", "", "", false, false⟩ (by decide) (by decide) (by decide)
    simpa using h
  · have h := register_idempotent.2 0 "bot" "http://h" ⟨[⟨1, 1, "A", "", "", true, true⟩], [], []⟩
        ⟨3, 33, "C", "", ""⟩ (by decide) (by decide) (by decide) (by decide)
    simpa using h

/-- C8, counterexample.  Revision 2's `/start` replies with the fixed
`startMsg_v2`; for the configured base URL `startMsg_v2 ++ "x"` (longer than
the whole reply) and chat id 42 the welcome cannot contain
`{baseURL}/{chatID}`, so the claim fails on the revision at lines 770-796. -/
theorem startReply_v2_missing_url :
    (handleStartCommand_v2 0 ⟨[], [], []⟩ ⟨1, 42, "Alice", "", ""⟩).replies = [startMsg_v2]
    ∧ ¬ ∃ p q : String, startMsg_v2 =
        p ++ ((startMsg_v2 ++ "x") ++ "/" ++ toString (42 : Int)) ++ q := by
  constructor
  · rfl
  · rintro ⟨p, q, hpq⟩
    have hlen := congrArg String.length hpq
    have hx : ("x" : String).length = 1 := rfl
    have hs : ("/" : String).length = 1 := rfl
    have h42 : (toString (42 : Int)).length = 2 := rfl
    simp only [String.length_append, hx, hs, h42] at hlen
    omega

/-- C8, amended.  In revision 1 the welcome reply is the fixed text followed
by the canonical entry URL `{baseURL}/{chatID}`, and a follow-up notice is
sent exactly when the sender ends up unauthorized; revision 2 sends a fixed
welcome without the URL (see the counterexample). -/
theorem startReply_v1_contains_url (selfID : Int) (selfName baseURL : String)
    (db : Db) (e : StartEvent) (h1 : e.uid ≠ selfID) (h2 : e.uid ∉ db.getFaults)
    (h3 : e.uid ∉ db.updateFaults) :
    (handleStartCommand_v1 selfID selfName baseURL db e).replies =
      (startMsgHead_v1 e.firstName selfName ++ (baseURL ++ "/" ++ toString e.cid))
        :: (if startAuth db e then [] else [startNoticeMsg])
    ∧ (handleStartCommand_v1 selfID selfName baseURL db e).failed = false := by
  cases hf : getUser db.users e.uid with
  | some u =>
    constructor <;>
      simp [handleStartCommand_v1, getUserInfoR, startAuth, startMsg_v1, h1, h2, hf]
  | none =>
    constructor <;>
      simp [handleStartCommand_v1, getUserInfoR, storeUserInfoR, startAuth, startMsg_v1,
        isFirstUserR, h1, h2, h3, hf]

/-- Witness for C8: a second user registering on a non-empty store gets the
welcome ending in `http://h/33` followed by the unauthorized notice. -/
theorem startReply_v1_contains_url_witness :
    (handleStartCommand_v1 0 "bot" "http://h" ⟨[⟨1, 1, "A", "", "", true, true⟩], [], []⟩
        ⟨3, 33, "C", "", ""⟩).replies =
      (startMsgHead_v1 "C" "bot" ++ ("http://h" ++ "/" ++ toString (33 : Int)))
        :: (if startAuth ⟨[⟨1, 1, "A", "", "", true, true⟩], [], []⟩ ⟨3, 33, "C", "", ""⟩
            then [] else [startNoticeMsg])
    ∧ (handleStartCommand_v1 0 "bot" "http://h" ⟨[⟨1, 1, "A", "", "", true, true⟩], [], []⟩
        ⟨3, 33, "C", "", ""⟩).failed = false :=
  startReply_v1_contains_url 0 "bot" "http://h" ⟨[⟨1, 1, "A", "", "", true, true⟩], [], []⟩
    ⟨3, 33, "C", "", ""⟩ (by decide) (by decide) (by decide)

/-- C5.  A media event whose chat has no user row, or whose row is not
authorized, only produces the denial reply: no payload is published to the
fan-out registry and no URL reply is sent. -/
theorem mediaDenied_no_publish (port baseURL : String) (hashLength : Nat)
    (db : Db) (cid messageID : Int) (mc : MediaContent)
    (h1 : cid ∉ db.getFaults)
    (h2 : getUser db.users cid = none
      ∨ ∃ u, getUser db.users cid = some u ∧ u.isAuthorized = false) :
    handleMediaMessages_v1 port baseURL hashLength db cid true messageID mc =
      ⟨[mediaDenyMsg_v1], [], false⟩ := by
  rcases h2 with h2 | ⟨u, h2, h3⟩
  · simp [handleMediaMessages_v1, getUserInfoR, h1, h2]
  · simp [handleMediaMessages_v1, getUserInfoR, h1, h2, h3]

/-- Witness for C5: an unregistered chat and a registered-but-unauthorized
chat each get only the denial, for a native media message. -/
theorem mediaDenied_no_publish_witness :
    handleMediaMessages_v1 "8080" "http://h" 8 ⟨[], [], []⟩ 7 true 3
        (.native ⟨"a.mp4", "video/mp4", 10, 99, 0, 0, 0, "", "", false, false⟩) =
      ⟨[mediaDenyMsg_v1], [], false⟩
    ∧ handleMediaMessages_v1 "8080" "http://h" 8 ⟨[⟨7, 7, "B", "", "", false, false⟩], [], []⟩
        7 true 3 (.native ⟨"a.mp4", "video/mp4", 10, 99, 0, 0, 0, "", "", false, false⟩) =
      ⟨[mediaDenyMsg_v1], [], false⟩ :=
  ⟨mediaDenied_no_publish "8080" "http://h" 8 ⟨[], [], []⟩ 7 3
      (.native ⟨"a.mp4", "video/mp4", 10, 99, 0, 0, 0, "", "", false, false⟩)
      (by decide) (Or.inl (by decide)),
   mediaDenied_no_publish "8080" "http://h" 8 ⟨[⟨7, 7, "B", "", "", false, false⟩], [], []⟩ 7 3
      (.native ⟨"a.mp4", "video/mp4", 10, 99, 0, 0, 0, "", "", false, false⟩)
      (by decide) (Or.inr ⟨⟨7, 7, "B", "", "", false, false⟩, by decide, by decide⟩)⟩

/-- C10 (implicit).  `handleMediaMessages` gates on `GetUserInfo(chatID)`
while registration stores the row keyed by the user id: a user whose chat id
differs from their user id, with no row keyed by that chat id, is denied on
media events even though their own row is authorized. -/
theorem mediaGate_keyed_by_chatID (port baseURL : String) (hashLength : Nat)
    (db : Db) (u : User) (messageID : Int) (mc : MediaContent)
    (hu : u ∈ db.users) (hauth : u.isAuthorized = true)
    (hne : u.userID ≠ u.chatID)
    (hnone : ∀ v ∈ db.users, v.userID ≠ u.chatID)
    (hf : u.chatID ∉ db.getFaults) :
    handleMediaMessages_v1 port baseURL hashLength db u.chatID true messageID mc =
      ⟨[mediaDenyMsg_v1], [], false⟩ := by
  have hfind : getUser db.users u.chatID = none := by
    unfold getUser
    apply List.find?_eq_none.mpr
    intro v hv
    simpa using hnone v hv
  simp [handleMediaMessages_v1, getUserInfoR, hf, hfind]

/-- Witness for C10: user 5 is authorized but registered under user id 5 with
chat id 9; a media event in chat 9 is denied. -/
theorem mediaGate_keyed_by_chatID_witness :
    handleMediaMessages_v1 "8080" "http://h" 8 ⟨[⟨5, 9, "C", "", "", true, false⟩], [], []⟩
        (⟨5, 9, "C", "", "", true, false⟩ : User).chatID true 3 .unsupported =
      ⟨[mediaDenyMsg_v1], [], false⟩ :=
  mediaGate_keyed_by_chatID "8080" "http://h" 8 ⟨[⟨5, 9, "C", "", "", true, false⟩], [], []⟩
    ⟨5, 9, "C", "", "", true, false⟩ 3 .unsupported
    (by decide) (by decide) (by decide) (by decide) (by decide)

/-- C2.  `/authorize` in revision 1: a non-admin actor (including an actor
with no row) gets the permission denial and nothing changes; an admin actor
with an absent target hits `AuthorizeUser`'s `NotFound` and the command
aborts with the generic failure, nothing changed; only an admin actor with
an existing target updates the target row to `isAuthorized = true,
isAdmin = grantAdmin`, notifies the target chat and confirms. -/
theorem authorize_permission_notfound_success :
    (∀ db actor args, actor ∉ db.getFaults →
      (getUser db.users actor = none
        ∨ ∃ a, getUser db.users actor = some a ∧ a.isAdmin = false) →
      handleAuthorizeUser_v1 db actor args = ⟨db, [permDeniedMsg], []⟩)
    ∧ (∀ db actor a c0 tStr rest t, actor ∉ db.getFaults →
      getUser db.users actor = some a → a.isAdmin = true →
      goParseInt tStr = some t → t ∉ db.updateFaults → getUser db.users t = none →
      authorizeUserR db t (admArg rest) = DbRes.noRows
      ∧ handleAuthorizeUser_v1 db actor (c0 :: tStr :: rest) = ⟨db, [authFailedMsg], []⟩)
    ∧ (∀ db actor a c0 tStr rest t tu, actor ∉ db.getFaults →
      getUser db.users actor = some a → a.isAdmin = true →
      goParseInt tStr = some t → t ∉ db.updateFaults → t ∉ db.getFaults →
      getUser db.users t = some tu →
      handleAuthorizeUser_v1 db actor (c0 :: tStr :: rest) =
        ⟨{ db with users := db.users.map (updUser t (admArg rest)) },
         ["User " ++ toString t ++ " has been authorized"
            ++ (if admArg rest then " as an admin" else "") ++ "."],
         [(tu.chatID, "You have been authorized"
            ++ (if admArg rest then " as an admin" else "") ++ " to use WebBridgeBot!")]⟩) := by
  refine ⟨?_, ?_, ?_⟩
  · intro db actor args h1 h2
    rcases h2 with h2 | ⟨a, h2, h3⟩
    · simp [handleAuthorizeUser_v1, getUserInfoR, h1, h2]
    · simp [handleAuthorizeUser_v1, getUserInfoR, h1, h2, h3]
  · intro db actor a c0 tStr rest t h1 h2 h3 h4 h5 h6
    have hres : authorizeUserR db t (admArg rest) = DbRes.noRows := by
      simp [authorizeUserR, h5, h6]
    refine ⟨hres, ?_⟩
    simp [handleAuthorizeUser_v1, getUserInfoR, authorizeCmdBody, h1, h2, h3, h4, hres]
  · intro db actor a c0 tStr rest t tu h1 h2 h3 h4 h5 h6 h7
    have hres : authorizeUserR db t (admArg rest) =
        DbRes.ok { db with users := db.users.map (updUser t (admArg rest)) } := by
      simp [authorizeUserR, h5, h7]
    have hlook : getUser (db.users.map (updUser t (admArg rest))) t =
        some (updUser t (admArg rest) tu) := by
      rw [getUser_map_updUser, h7]; rfl
    simp [handleAuthorizeUser_v1, getUserInfoR, authorizeCmdBody, h1, h2, h3, h4, hres,
      hlook, h6, updUser_chatID]

/-- Witness for C2: on a store with admin user 1 and plain user 2, a command
from user 2 is denied, `/authorize 5` from user 1 hits NotFound and fails,
and `/authorize 2 admin` from user 1 grants user 2 admin and notifies chat
22. -/
theorem authorize_permission_notfound_success_witness :
    handleAuthorizeUser_v1 ⟨[⟨1, 11, "A", "", "", true, true⟩,
        ⟨2, 22, "B", "", "", false, false⟩], [], []⟩ 2 ["/authorize", "1"] =
      ⟨⟨[⟨1, 11, "A", "", "", true, true⟩, ⟨2, 22, "B", "", "", false, false⟩], [], []⟩,
        [permDeniedMsg], []⟩
    ∧ (authorizeUserR ⟨[⟨1, 11, "A", "", "", true, true⟩,
          ⟨2, 22, "B", "", "", false, false⟩], [], []⟩ 5 (admArg []) = DbRes.noRows
      ∧ handleAuthorizeUser_v1 ⟨[⟨1, 11, "A", "", "", true, true⟩,
          ⟨2, 22, "B", "", "", false, false⟩], [], []⟩ 1 ["/authorize", "5"] =
        ⟨⟨[⟨1, 11, "A", "", "", true, true⟩, ⟨2, 22, "B", "", "", false, false⟩], [], []⟩,
          [authFailedMsg], []⟩)
    ∧ handleAuthorizeUser_v1 ⟨[⟨1, 11, "A", "", "", true, true⟩,
        ⟨2, 22, "B", "", "", false, false⟩], [], []⟩ 1 ["/authorize", "2", "admin"] =
      ⟨{ users := [⟨1, 11, "A", "", "", true, true⟩,
            ⟨2, 22, "B", "", "", false, false⟩].map (updUser 2 (admArg ["admin"])),
          getFaults := [], updateFaults := [] },
        ["User " ++ toString (2 : Int) ++ " has been authorized"
          ++ (if admArg ["admin"] then " as an admin" else "") ++ "."],
        [((22 : Int), "You have been authorized"
          ++ (if admArg ["admin"] then " as an admin" else "") ++ " to use WebBridgeBot!")]⟩ :=
  ⟨authorize_permission_notfound_success.1 _ 2 ["/authorize", "1"] (by decide)
      (Or.inr ⟨⟨2, 22, "B", "", "", false, false⟩, by decide, by decide⟩),
   authorize_permission_notfound_success.2.1 _ 1 ⟨1, 11, "A", "", "", true, true⟩
      "/authorize" "5" [] 5 (by decide) (by decide) (by decide) (by decide)
      (by decide) (by decide),
   authorize_permission_notfound_success.2.2 _ 1 ⟨1, 11, "A", "", "", true, true⟩
      "/authorize" "2" ["admin"] 2 ⟨2, 22, "B", "", "", false, false⟩ (by decide)
      (by decide) (by decide) (by decide) (by decide) (by decide) (by decide)⟩

/-- C9, counterexample.  In revision 1, a storage error while retrieving the
acting user's row makes `/authorize` reply with exactly the not-an-admin
denial text — the storage failure is conflated with `PermissionDenied`
instead of surfacing as a distinct generic failure. -/
theorem authorize_v1_conflates_storage_error :
    handleAuthorizeUser_v1 ⟨[], [1], []⟩ 1 ["/authorize", "2"] =
      ⟨⟨[], [1], []⟩, [permDeniedMsg], []⟩
    ∧ permDeniedMsg = "You are not authorized to perform this action." := by
  constructor <;> rfl

/-- C9, amended.  In revision 2, a storage failure retrieving the acting
user's row aborts `/authorize` resp. `/deauthorize` with the generic failure
message, a storage failure updating the target row likewise aborts with the
generic failure and no state change, and both generic messages differ from
the permission denial. -/
theorem authorize_v2_storage_failure_distinct :
    (∀ db actor args, actor ∈ db.getFaults →
      handleAuthorizeUser_v2 db actor args = ⟨db, [authFailedMsg], []⟩)
    ∧ (∀ db actor args, actor ∈ db.getFaults →
      handleDeauthorizeUser_v2 db actor args = ⟨db, [deauthFailedMsg], []⟩)
    ∧ (∀ db actor a c0 tStr rest t, actor ∉ db.getFaults →
      getUser db.users actor = some a → a.isAdmin = true →
      goParseInt tStr = some t → t ∈ db.updateFaults →
      handleAuthorizeUser_v2 db actor (c0 :: tStr :: rest) = ⟨db, [authFailedMsg], []⟩)
    ∧ authFailedMsg ≠ permDeniedMsg ∧ deauthFailedMsg ≠ permDeniedMsg := by
  refine ⟨?_, ?_, ?_, by decide, by decide⟩
  · intro db actor args h
    simp [handleAuthorizeUser_v2, getUserInfoR, h]
  · intro db actor args h
    simp [handleDeauthorizeUser_v2, getUserInfoR, h]
  · intro db actor a c0 tStr rest t h1 h2 h3 h4 h5
    simp [handleAuthorizeUser_v2, getUserInfoR, authorizeCmdBody, authorizeUserR,
      h1, h2, h3, h4, h5]

/-- Witness for C9: storage faults on the read of actor 1 and on the update
of target 2 each produce the generic failure replies. -/
theorem authorize_v2_storage_failure_distinct_witness :
    handleAuthorizeUser_v2 ⟨[], [1], []⟩ 1 ["/authorize", "2"] =
      ⟨⟨[], [1], []⟩, [authFailedMsg], []⟩
    ∧ handleDeauthorizeUser_v2 ⟨[], [1], []⟩ 1 ["/deauthorize", "2"] =
      ⟨⟨[], [1], []⟩, [deauthFailedMsg], []⟩
    ∧ handleAuthorizeUser_v2 ⟨[⟨1, 11, "A", "", "", true, true⟩], [], [2]⟩ 1
        ["/authorize", "2"] =
      ⟨⟨[⟨1, 11, "A", "", "", true, true⟩], [], [2]⟩, [authFailedMsg], []⟩ :=
  ⟨authorize_v2_storage_failure_distinct.1 ⟨[], [1], []⟩ 1 ["/authorize", "2"] (by decide),
   authorize_v2_storage_failure_distinct.2.1 ⟨[], [1], []⟩ 1 ["/deauthorize", "2"] (by decide),
   authorize_v2_storage_failure_distinct.2.2.1 ⟨[⟨1, 11, "A", "", "", true, true⟩], [], [2]⟩
      1 ⟨1, 11, "A", "", "", true, true⟩ "/authorize" "2" [] 2 (by decide) (by decide)
      (by decide) (by decide) (by decide)⟩
